import Mathlib

/-!
# GodunovSPH: state vector and Euler fluxes (`src/flow/flow.cpp`)

Two shallow embeddings of `namespace flow`.

## Exact arithmetic (`flow.*`)

* `double` is embedded as `ℚ`: every finite double is a rational number and
  the four operations are taken without rounding.  Rational division by zero
  is `0` in Lean whereas the machine yields an infinity or a NaN, so this
  embedding follows the code exactly as long as no divisor is zero; general
  statements on it carry the hypotheses that keep every divisor away from zero.
  It is the embedding for the statements made "in exact arithmetic".

## Binary64 arithmetic (`flow.F64.*`)

* `double` is embedded as `Double`: a finite value (the rational it denotes), a
  signed infinity or a NaN.  Each operation computes the exact result and
  rounds it once with `Double.round64` (round to nearest, ties to even, 53
  significant bits, subnormals, overflow to infinity); the special values follow
  the IEEE-754 rules.  The sign of zero is not tracked, and the compiler is taken
  not to contract or widen operations.
* The functions of `flow.cpp` are written a second time over `Double`, with the
  same names inside `flow.F64`.  This embedding decides what the code does where
  rounding or a zero divisor matters.

## Both

* `std::vector<double> state` always has length three after either
  constructor, and the code indexes it with the literals 0, 1 and 2 only; it is
  embedded as a record of the three slots `state0`, `state1`, `state2`.
* C++ evaluates `a*b*c` and `a*b/c` from the left; the definitions keep that
  association.
-/

namespace flow

/-- Modelled from the spec: the adiabatic index `flow::gammaconst::gamma` is
declared in `flow.h`, which is not part of the sources; the specification fixes
it to 1.4. -/
def gamma : ℚ := 7 / 5

/-- `calcTotalEnergyFromPrimitives` (flow.cpp, lines 13-19). -/
def calcTotalEnergyFromPrimitives (density u_velocity pressure : ℚ) : ℚ :=
  density * (1 / 2 * u_velocity * u_velocity + pressure / ((gamma - 1) * density))

/-- `calcPressureFromConservatives` (flow.cpp, lines 23-28). -/
def calcPressureFromConservatives (density u_momentum total_energy : ℚ) : ℚ :=
  (gamma - 1) * (total_energy - 1 / 2 * u_momentum * u_momentum / density)

/-- The class `StateVector`: the three slots of its member `state`. -/
structure StateVector where
  state0 : ℚ
  state1 : ℚ
  state2 : ℚ
deriving DecidableEq, Repr

namespace StateVector

/-- `StateVector::StateVector()` (lines 33-35): `state.resize(3, 0.0)`. -/
def default : StateVector :=
  { state0 := 0, state1 := 0, state2 := 0 }

/-- `StateVector::StateVector(density, u_velocity, pressure)` (lines 37-44):
the only three-argument constructor; it takes primitive variables. -/
def mk3 (density u_velocity pressure : ℚ) : StateVector :=
  { state0 := density
    state1 := density * u_velocity
    state2 := calcTotalEnergyFromPrimitives density u_velocity pressure }

/-- `StateVector::getDensity` (lines 48-50). -/
def getDensity (s : StateVector) : ℚ := s.state0

/-- `StateVector::getUVelocity` (lines 52-54). -/
def getUVelocity (s : StateVector) : ℚ := s.state1 / s.state0

/-- `StateVector::getUMomentum` (lines 56-58). -/
def getUMomentum (s : StateVector) : ℚ := s.state1

/-- `StateVector::getPressure` (lines 60-62). -/
def getPressure (s : StateVector) : ℚ :=
  calcPressureFromConservatives s.state0 s.state1 s.state2

/-- `StateVector::getTotalEnergy` (lines 64-66). -/
def getTotalEnergy (s : StateVector) : ℚ := s.state2

/-- `StateVector::setPrimitives` (lines 68-74): three assignments in order. -/
def setPrimitives (s : StateVector) (density u_velocity pressure : ℚ) : StateVector :=
  let s1 := { s with state0 := density }
  let s2 := { s1 with state1 := density * u_velocity }
  { s2 with state2 := calcTotalEnergyFromPrimitives density u_velocity pressure }

/-- `StateVector::setConservatives` (lines 76-82): three assignments in order. -/
def setConservatives (s : StateVector) (density u_momentum total_energy : ℚ) : StateVector :=
  let s1 := { s with state0 := density }
  let s2 := { s1 with state1 := u_momentum }
  { s2 with state2 := total_energy }

/-- The three stored slots as read by `getDensity`, `getUMomentum` and
`getTotalEnergy`. -/
def stored (s : StateVector) : ℚ × ℚ × ℚ :=
  (s.getDensity, s.getUMomentum, s.getTotalEnergy)

end StateVector

/-- `calcEulerFluxFromPrimitives` (lines 87-95): the three computed values are
handed to the three-argument constructor, which is the constructor from
primitives. -/
def calcEulerFluxFromPrimitives (density u_velocity pressure : ℚ) : StateVector :=
  let energy := calcTotalEnergyFromPrimitives density u_velocity pressure
  StateVector.mk3 (density * u_velocity)
    (pressure + density * u_velocity * u_velocity)
    ((energy + pressure / density) * u_velocity)

/-- `calcEulerFluxFromConservatives` (lines 97-105). -/
def calcEulerFluxFromConservatives (density u_momentum total_energy : ℚ) : StateVector :=
  let pressure := calcPressureFromConservatives density u_momentum total_energy
  StateVector.mk3 u_momentum
    (pressure + u_momentum * u_momentum / density)
    ((total_energy + pressure / density) * u_momentum / density)

/-- The analytic Euler flux in the words of the specification (section 4.3):
`(ρu, p + ρu², (E + p)u)` with `E` the total energy of `(ρ, u, p)`. -/
def analyticFluxFromPrimitives (rho u p : ℚ) : ℚ × ℚ × ℚ :=
  (rho * u, p + rho * u ^ 2, (calcTotalEnergyFromPrimitives rho u p + p) * u)

/-- The flux from conservatives in the words of the specification
(section 4.3): `(m, p + m²/ρ, (E + p)m/ρ)` with `p` the pressure of
`(ρ, m, E)`. -/
def analyticFluxFromConservatives (rho m E : ℚ) : ℚ × ℚ × ℚ :=
  (m, calcPressureFromConservatives rho m E + m ^ 2 / rho,
    (E + calcPressureFromConservatives rho m E) * m / rho)

/-! ## Binary64 embedding -/

/-- Floor of the binary logarithm by repeated halving; `fuel` bounds the number
of halvings and `ilog2 n n` is the logarithm of `n`. -/
def ilog2 : ℕ → ℕ → ℕ
  | 0, _ => 0
  | fuel + 1, n => if n < 2 then 0 else ilog2 fuel (n / 2) + 1

/-- The values of a C++ `double` (IEEE-754 binary64): a finite value held as
the rational number it denotes, an infinity with its sign, or a NaN.  The sign
of zero is not tracked. -/
inductive Double where
  | fin (q : ℚ)
  | inf (neg : Bool)
  | nan
deriving DecidableEq, Repr

namespace Double

/-- Quotient `n / d` of naturals rounded to the nearest integer, ties to even. -/
def roundQuot (n d : ℕ) : ℕ :=
  let m := n / d
  let r := n % d
  if 2 * r < d then m else if d < 2 * r then m + 1 else if m % 2 = 0 then m else m + 1

/-- Rounding of an exact result to binary64, round to nearest, ties to even:
53 significant bits, least exponent of the last place `-1074` (subnormals),
overflow to infinity from `2^1024 - 2^970` on. -/
def round64 (q : ℚ) : Double :=
  if q = 0 then fin 0 else
    let a := q.num.natAbs
    let b := q.den
    let k0 : ℤ := (ilog2 a a : ℤ) - (ilog2 b b : ℤ)
    let k : ℤ := if b * 2 ^ k0.toNat ≤ a * 2 ^ (-k0).toNat then k0 else k0 - 1
    let e : ℤ := max k (-1022) - 52
    let m := roundQuot (a * 2 ^ (-e).toNat) (b * 2 ^ e.toNat)
    if 2 ^ 1024 ≤ m * 2 ^ e.toNat then inf (decide (q < 0))
    else fin (mkRat (if q < 0 then -(m * 2 ^ e.toNat : ℤ) else (m * 2 ^ e.toNat : ℤ))
      (2 ^ (-e).toNat))

/-- Addition of doubles. -/
def add : Double → Double → Double
  | fin a, fin b => round64 (a + b)
  | fin _, inf t => inf t
  | inf s, fin _ => inf s
  | inf s, inf t => if s = t then inf s else nan
  | nan, _ => nan
  | _, nan => nan

/-- Subtraction of doubles. -/
def sub : Double → Double → Double
  | fin a, fin b => round64 (a - b)
  | fin _, inf t => inf (!t)
  | inf s, fin _ => inf s
  | inf s, inf t => if s = t then nan else inf s
  | nan, _ => nan
  | _, nan => nan

/-- Multiplication of doubles; zero times an infinity is a NaN. -/
def mul : Double → Double → Double
  | fin a, fin b => round64 (a * b)
  | fin a, inf t => if a = 0 then nan else inf (xor (decide (a < 0)) t)
  | inf s, fin b => if b = 0 then nan else inf (xor s (decide (b < 0)))
  | inf s, inf t => inf (xor s t)
  | nan, _ => nan
  | _, nan => nan

/-- Division of doubles; a non-zero finite value over zero is an infinity (with
the sign of the numerator, the divisor being taken as `+0`), zero over zero and
infinity over infinity are NaNs. -/
def div : Double → Double → Double
  | fin a, fin b =>
    if b = 0 then (if a = 0 then nan else inf (decide (a < 0))) else round64 (a / b)
  | fin _, inf _ => fin 0
  | inf s, fin b => inf (xor s (decide (b < 0)))
  | inf _, inf _ => nan
  | nan, _ => nan
  | _, nan => nan

instance : Add Double := ⟨add⟩
instance : Sub Double := ⟨sub⟩
instance : Mul Double := ⟨mul⟩
instance : Div Double := ⟨div⟩

/-- The test `std::isfinite`. -/
def isFinite : Double → Bool
  | fin _ => true
  | _ => false

/-- A finite value that binary64 holds exactly. -/
def representable (q : ℚ) : Prop := round64 q = fin q

instance (q : ℚ) : Decidable (representable q) := by
  unfold representable
  infer_instance

end Double

namespace F64

open Double

/-- Modelled from the spec: `flow::gammaconst::gamma` of the absent `flow.h`,
the double nearest to the literal 1.4. -/
def gamma : Double := round64 (7 / 5)

/-- `calcTotalEnergyFromPrimitives` (flow.cpp, lines 13-19) in binary64. -/
def calcTotalEnergyFromPrimitives (density u_velocity pressure : Double) : Double :=
  density * (fin (1 / 2) * u_velocity * u_velocity + pressure / ((gamma - fin 1) * density))

/-- `calcPressureFromConservatives` (flow.cpp, lines 23-28) in binary64. -/
def calcPressureFromConservatives (density u_momentum total_energy : Double) : Double :=
  (gamma - fin 1) * (total_energy - fin (1 / 2) * u_momentum * u_momentum / density)

/-- The class `StateVector` with slots of type `double`. -/
structure StateVector where
  state0 : Double
  state1 : Double
  state2 : Double
deriving DecidableEq, Repr

namespace StateVector

/-- `StateVector::StateVector(density, u_velocity, pressure)` (lines 37-44). -/
def mk3 (density u_velocity pressure : Double) : StateVector :=
  { state0 := density
    state1 := density * u_velocity
    state2 := calcTotalEnergyFromPrimitives density u_velocity pressure }

/-- `StateVector::getDensity` (lines 48-50). -/
def getDensity (s : StateVector) : Double := s.state0

/-- `StateVector::getUVelocity` (lines 52-54). -/
def getUVelocity (s : StateVector) : Double := s.state1 / s.state0

/-- `StateVector::getUMomentum` (lines 56-58). -/
def getUMomentum (s : StateVector) : Double := s.state1

/-- `StateVector::getPressure` (lines 60-62). -/
def getPressure (s : StateVector) : Double :=
  calcPressureFromConservatives s.state0 s.state1 s.state2

/-- `StateVector::getTotalEnergy` (lines 64-66). -/
def getTotalEnergy (s : StateVector) : Double := s.state2

end StateVector

/-- `calcEulerFluxFromPrimitives` (lines 87-95) in binary64. -/
def calcEulerFluxFromPrimitives (density u_velocity pressure : Double) : StateVector :=
  let energy := calcTotalEnergyFromPrimitives density u_velocity pressure
  StateVector.mk3 (density * u_velocity)
    (pressure + density * u_velocity * u_velocity)
    ((energy + pressure / density) * u_velocity)

/-- `calcEulerFluxFromConservatives` (lines 97-105) in binary64. -/
def calcEulerFluxFromConservatives (density u_momentum total_energy : Double) : StateVector :=
  let pressure := calcPressureFromConservatives density u_momentum total_energy
  StateVector.mk3 u_momentum
    (pressure + u_momentum * u_momentum / density)
    ((total_energy + pressure / density) * u_momentum / density)

end F64

/-! ## Shared algebra -/

theorem gamma_sub_one : gamma - 1 = 2 / 5 := by
  norm_num [gamma]

/-- Total energy in closed form once the density is non-zero. -/
theorem totalEnergy_eq (rho u p : ℚ) (h : rho ≠ 0) :
    calcTotalEnergyFromPrimitives rho u p = 1 / 2 * rho * u ^ 2 + p / (gamma - 1) := by
  unfold calcTotalEnergyFromPrimitives
  rw [gamma_sub_one]
  field_simp
  ring

/-- Pressure recovered from the energy built out of a velocity. -/
theorem pressure_of_totalEnergy (rho u p : ℚ) (h : rho ≠ 0) :
    calcPressureFromConservatives rho (rho * u) (calcTotalEnergyFromPrimitives rho u p) = p := by
  unfold calcPressureFromConservatives calcTotalEnergyFromPrimitives
  rw [gamma_sub_one]
  field_simp
  ring

/-- Energy rebuilt from the pressure of a conservative triple. -/
theorem totalEnergy_of_pressure (rho m E : ℚ) (h : rho ≠ 0) :
    calcTotalEnergyFromPrimitives rho (m / rho) (calcPressureFromConservatives rho m E) = E := by
  unfold calcPressureFromConservatives calcTotalEnergyFromPrimitives
  rw [gamma_sub_one]
  field_simp
  ring

/-! ## Claims -/

/-- C1. Primitive round trip: for `rho > 0`, any `u` and `p > 0`, the state
constructed from the primitives `(rho, u, p)` reads back `getDensity = rho`,
`getUVelocity = u` and `getPressure = p`. -/
theorem primitive_round_trip (rho u p : ℚ) (hrho : 0 < rho) (_hp : 0 < p) :
    (StateVector.mk3 rho u p).getDensity = rho ∧
    (StateVector.mk3 rho u p).getUVelocity = u ∧
    (StateVector.mk3 rho u p).getPressure = p := by
  have h : rho ≠ 0 := ne_of_gt hrho
  refine ⟨rfl, ?_, ?_⟩
  · show rho * u / rho = u
    field_simp
  · exact pressure_of_totalEnergy rho u p h

theorem primitive_round_trip_witness :
    (0 : ℚ) < 2 ∧ (0 : ℚ) < 1 ∧
    (StateVector.mk3 2 3 1).getDensity = 2 ∧
    (StateVector.mk3 2 3 1).getUVelocity = 3 ∧
    (StateVector.mk3 2 3 1).getPressure = 1 :=
  ⟨by norm_num, by norm_num, primitive_round_trip 2 3 1 (by norm_num) (by norm_num)⟩

/-- C2. Energy/pressure inverse law: for `rho > 0`, any momentum `m` and
`p > 0`, the pressure computed from `(rho, m, E)` with `E` the total energy of
the primitives `(rho, m/rho, p)` is `p` again. -/
theorem energy_pressure_inverse (rho m p : ℚ) (hrho : 0 < rho) (_hp : 0 < p) :
    calcPressureFromConservatives rho m (calcTotalEnergyFromPrimitives rho (m / rho) p) = p := by
  have h : rho ≠ 0 := ne_of_gt hrho
  have hm : rho * (m / rho) = m := by field_simp
  have key := pressure_of_totalEnergy rho (m / rho) p h
  rw [hm] at key
  exact key

theorem energy_pressure_inverse_witness :
    (0 : ℚ) < 2 ∧ (0 : ℚ) < 3 ∧
    calcPressureFromConservatives 2 5 (calcTotalEnergyFromPrimitives 2 (5 / 2) 3) = 3 :=
  ⟨by norm_num, by norm_num, energy_pressure_inverse 2 5 3 (by norm_num) (by norm_num)⟩

/-- C3. Conservative to primitive to conservative: for a stored triple
`(rho, m, E)` with `rho > 0`, the primitive accessors rebuild the stored
momentum and total energy, and `setPrimitives` applied to the state's own
primitive readings leaves the state unchanged. -/
theorem conservative_primitive_consistency (rho m E : ℚ) (hrho : 0 < rho) :
    let s : StateVector := { state0 := rho, state1 := m, state2 := E }
    s.getDensity * s.getUVelocity = m ∧
    calcTotalEnergyFromPrimitives s.getDensity s.getUVelocity s.getPressure = E ∧
    s.setPrimitives s.getDensity s.getUVelocity s.getPressure = s := by
  have h : rho ≠ 0 := ne_of_gt hrho
  have hm : rho * (m / rho) = m := by field_simp
  have hE := totalEnergy_of_pressure rho m E h
  intro s
  refine ⟨hm, hE, ?_⟩
  show StateVector.mk rho (rho * (m / rho))
      (calcTotalEnergyFromPrimitives rho (m / rho) (calcPressureFromConservatives rho m E))
    = StateVector.mk rho m E
  rw [hm, hE]

theorem conservative_primitive_consistency_witness :
    (0 : ℚ) < 2 ∧
    (let s : StateVector := { state0 := 2, state1 := 3, state2 := 7 }
     s.getDensity * s.getUVelocity = 3 ∧
     calcTotalEnergyFromPrimitives s.getDensity s.getUVelocity s.getPressure = 7 ∧
     s.setPrimitives s.getDensity s.getUVelocity s.getPressure = s) :=
  ⟨by norm_num, conservative_primitive_consistency 2 3 7 (by norm_num)⟩

/-- Flux agreement away from rest, in exact arithmetic: for `rho > 0`, `u ≠ 0`
and any `p`, with `m = rho*u` and `E` the total energy of `(rho, u, p)`, the
state returned by `calcEulerFluxFromPrimitives rho u p` equals the state
returned by `calcEulerFluxFromConservatives rho m E`.  With `u ≠ 0` the first
constructor argument `rho*u` is non-zero, so no divisor is zero. -/
theorem flux_agreement_of_nonzero_velocity (rho u p : ℚ) (hrho : 0 < rho) (_hu : u ≠ 0) :
    calcEulerFluxFromPrimitives rho u p =
      calcEulerFluxFromConservatives rho (rho * u) (calcTotalEnergyFromPrimitives rho u p) ∧
    (calcEulerFluxFromPrimitives rho u p).stored =
      (calcEulerFluxFromConservatives rho (rho * u)
        (calcTotalEnergyFromPrimitives rho u p)).stored := by
  have h : rho ≠ 0 := ne_of_gt hrho
  have hp := pressure_of_totalEnergy rho u p h
  have h2 : p + rho * u * (rho * u) / rho = p + rho * u * u := by
    field_simp
    ring
  have h3 : (calcTotalEnergyFromPrimitives rho u p + p / rho) * (rho * u) / rho
      = (calcTotalEnergyFromPrimitives rho u p + p / rho) * u := by
    field_simp
    ring
  have key : calcEulerFluxFromPrimitives rho u p =
      calcEulerFluxFromConservatives rho (rho * u) (calcTotalEnergyFromPrimitives rho u p) := by
    unfold calcEulerFluxFromPrimitives calcEulerFluxFromConservatives
    simp only [hp, h2, h3]
  exact ⟨key, by rw [key]⟩

/-- C5. Flux from primitives, evaluated at `(rho, u, p) = (2, 1, 1)`: the
returned state stores `(2, 6, 19)`, whereas the analytic Euler flux
`(rho*u, p + rho*u^2, (E + p)*u)` is `(2, 3, 9/2)`; the second and third stored
slots are not the flux components. -/
theorem flux_from_primitives_stored_at_2_1_1 :
    (calcEulerFluxFromPrimitives 2 1 1).stored = (2, 6, 19) ∧
    analyticFluxFromPrimitives 2 1 1 = (2, 3, 9 / 2) ∧
    (calcEulerFluxFromPrimitives 2 1 1).stored ≠ analyticFluxFromPrimitives 2 1 1 := by
  have hc : (calcEulerFluxFromPrimitives 2 1 1).stored = (2, 6, 19) := by
    simp only [calcEulerFluxFromPrimitives, StateVector.mk3, StateVector.stored,
      StateVector.getDensity, StateVector.getUMomentum, StateVector.getTotalEnergy,
      calcTotalEnergyFromPrimitives, gamma]
    norm_num
  have ha : analyticFluxFromPrimitives 2 1 1 = (2, 3, 9 / 2) := by
    simp only [analyticFluxFromPrimitives, calcTotalEnergyFromPrimitives, gamma]
    norm_num
  refine ⟨hc, ha, ?_⟩
  rw [hc, ha]
  norm_num

/-- C6. Flux from conservatives, evaluated at `(rho, m, E) = (2, 2, 7/2)`: the
returned state stores `(2, 6, 19)`, whereas `(m, p + m^2/rho, (E + p)*m/rho)`
with `p` the pressure of the triple is `(2, 3, 9/2)`. -/
theorem flux_from_conservatives_stored_at_2_2_7half :
    (calcEulerFluxFromConservatives 2 2 (7 / 2)).stored = (2, 6, 19) ∧
    analyticFluxFromConservatives 2 2 (7 / 2) = (2, 3, 9 / 2) ∧
    (calcEulerFluxFromConservatives 2 2 (7 / 2)).stored ≠
      analyticFluxFromConservatives 2 2 (7 / 2) := by
  have hc : (calcEulerFluxFromConservatives 2 2 (7 / 2)).stored = (2, 6, 19) := by
    simp only [calcEulerFluxFromConservatives, StateVector.mk3, StateVector.stored,
      StateVector.getDensity, StateVector.getUMomentum, StateVector.getTotalEnergy,
      calcTotalEnergyFromPrimitives, calcPressureFromConservatives, gamma]
    norm_num
  have ha : analyticFluxFromConservatives 2 2 (7 / 2) = (2, 3, 9 / 2) := by
    simp only [analyticFluxFromConservatives, calcPressureFromConservatives, gamma]
    norm_num
  refine ⟨hc, ha, ?_⟩
  rw [hc, ha]
  norm_num

/-- C7. Known physical case 2, evaluated on the code: the state returned by
`calcEulerFluxFromPrimitives 1 2 1` stores `(2, 10, 105/2)`, not `(2, 5, 11)`;
the values `2`, `5`, `11` are the arguments handed to the constructor from
primitives and come back through `getDensity`, `getUVelocity`, `getPressure`. -/
theorem flux_case2_stored :
    (calcEulerFluxFromPrimitives 1 2 1).stored = (2, 10, 105 / 2) ∧
    (calcEulerFluxFromPrimitives 1 2 1).stored ≠ (2, 5, 11) ∧
    calcEulerFluxFromPrimitives 1 2 1 = StateVector.mk3 2 5 11 := by
  have hm : calcEulerFluxFromPrimitives 1 2 1 = StateVector.mk3 2 5 11 := by
    simp only [calcEulerFluxFromPrimitives, calcTotalEnergyFromPrimitives, gamma]
    norm_num
  have hc : (calcEulerFluxFromPrimitives 1 2 1).stored = (2, 10, 105 / 2) := by
    rw [hm]
    simp only [StateVector.mk3, StateVector.stored, StateVector.getDensity,
      StateVector.getUMomentum, StateVector.getTotalEnergy,
      calcTotalEnergyFromPrimitives, gamma]
    norm_num
  refine ⟨hc, ?_, hm⟩
  rw [hc]
  norm_num

/-- C8. Known physical case 1 (zero velocity), evaluated on the code: the state
returned by `calcEulerFluxFromPrimitives 1 0 1` is built by the constructor
from primitives out of `(0, 1, 0)`, so its momentum slot holds `0 * 1 = 0`
instead of the flux component `1`. -/
theorem flux_case1_momentum_slot :
    calcEulerFluxFromPrimitives 1 0 1 = StateVector.mk3 0 1 0 ∧
    (calcEulerFluxFromPrimitives 1 0 1).getDensity = 0 ∧
    (calcEulerFluxFromPrimitives 1 0 1).getUMomentum = 0 ∧
    (calcEulerFluxFromPrimitives 1 0 1).getUMomentum ≠ 1 := by
  have hm : calcEulerFluxFromPrimitives 1 0 1 = StateVector.mk3 0 1 0 := by
    simp only [calcEulerFluxFromPrimitives, calcTotalEnergyFromPrimitives, gamma]
    norm_num
  refine ⟨hm, ?_, ?_, ?_⟩ <;> rw [hm] <;>
    simp [StateVector.mk3, StateVector.getDensity, StateVector.getUMomentum]

/-- C9. Total energy in closed form: for `rho > 0`, any `u` and `p`,
`calcTotalEnergyFromPrimitives rho u p = (1/2)*rho*u^2 + p/(gamma - 1)`; it
returns `5/2` at `(1, 0, 1)` and `9/2` at `(1, 2, 1)`. -/
theorem total_energy_closed_form (rho u p : ℚ) (hrho : 0 < rho) :
    calcTotalEnergyFromPrimitives rho u p = 1 / 2 * rho * u ^ 2 + p / (gamma - 1) ∧
    calcTotalEnergyFromPrimitives 1 0 1 = 5 / 2 ∧
    calcTotalEnergyFromPrimitives 1 2 1 = 9 / 2 := by
  refine ⟨totalEnergy_eq rho u p (ne_of_gt hrho), ?_, ?_⟩ <;>
    norm_num [calcTotalEnergyFromPrimitives, gamma]

theorem total_energy_closed_form_witness :
    (0 : ℚ) < 3 ∧
    calcTotalEnergyFromPrimitives 3 2 4 = 1 / 2 * 3 * 2 ^ 2 + 4 / (gamma - 1) ∧
    calcTotalEnergyFromPrimitives 1 0 1 = 5 / 2 ∧
    calcTotalEnergyFromPrimitives 1 2 1 = 9 / 2 :=
  ⟨by norm_num, total_energy_closed_form 3 2 4 (by norm_num)⟩

/-- C10. Construction from primitives: for every `rho`, `u` and `p` the state
built by the three-argument constructor stores `rho`, `rho*u` and
`calcTotalEnergyFromPrimitives rho u p`, read by `getDensity`, `getUMomentum`
and `getTotalEnergy`. -/
theorem construction_from_primitives (rho u p : ℚ) :
    (StateVector.mk3 rho u p).getDensity = rho ∧
    (StateVector.mk3 rho u p).getUMomentum = rho * u ∧
    (StateVector.mk3 rho u p).getTotalEnergy = calcTotalEnergyFromPrimitives rho u p ∧
    (StateVector.mk3 rho u p).stored =
      (rho, rho * u, calcTotalEnergyFromPrimitives rho u p) :=
  ⟨rfl, rfl, rfl, rfl⟩

/-- C11. Conservative round trip: for `rho > 0`, any `m` and `E` with
`E > (1/2)*m^2/rho`, a state given the triple by `setConservatives rho m E`,
whether default-constructed or any other state `s`, reads back
`getDensity = rho`, `getUMomentum = m` and `getTotalEnergy = E`; the three
slots hold the arguments themselves. -/
theorem conservative_round_trip (s : StateVector) (rho m E : ℚ)
    (_hrho : 0 < rho) (_hE : 1 / 2 * m ^ 2 / rho < E) :
    (s.setConservatives rho m E).getDensity = rho ∧
    (s.setConservatives rho m E).getUMomentum = m ∧
    (s.setConservatives rho m E).getTotalEnergy = E ∧
    s.setConservatives rho m E = { state0 := rho, state1 := m, state2 := E } ∧
    (StateVector.default.setConservatives rho m E).stored = (rho, m, E) :=
  ⟨rfl, rfl, rfl, rfl, rfl⟩

theorem conservative_round_trip_witness :
    (0 : ℚ) < 2 ∧ (1 / 2 * 3 ^ 2 / 2 : ℚ) < 7 ∧
    ((StateVector.mk3 1 1 1).setConservatives 2 3 7).getDensity = 2 ∧
    ((StateVector.mk3 1 1 1).setConservatives 2 3 7).getUMomentum = 3 ∧
    ((StateVector.mk3 1 1 1).setConservatives 2 3 7).getTotalEnergy = 7 ∧
    (StateVector.mk3 1 1 1).setConservatives 2 3 7
      = { state0 := 2, state1 := 3, state2 := 7 } ∧
    (StateVector.default.setConservatives 2 3 7).stored = (2, 3, 7) :=
  ⟨by norm_num, by norm_num,
    conservative_round_trip (StateVector.mk3 1 1 1) 2 3 7 (by norm_num) (by norm_num)⟩

/-- C12, amended to exact arithmetic: without rounding, for `rho > 0`, any `m`
and `E`, `calcPressureFromConservatives rho m E = (gamma - 1)*(E - (1/2)*m^2/rho)`,
it is non-negative exactly when `E ≥ (1/2)*m^2/rho`, and a state whose total
energy lies below `(1/2)*m^2/rho` has a strictly negative `getPressure`, which
is returned as an ordinary value. -/
theorem pressure_sign (rho m E : ℚ) (_hrho : 0 < rho) :
    calcPressureFromConservatives rho m E = (gamma - 1) * (E - 1 / 2 * m ^ 2 / rho) ∧
    (0 ≤ calcPressureFromConservatives rho m E ↔ 1 / 2 * m ^ 2 / rho ≤ E) ∧
    (E < 1 / 2 * m ^ 2 / rho →
      (StateVector.mk rho m E).getPressure < 0) := by
  have hform : calcPressureFromConservatives rho m E
      = (gamma - 1) * (E - 1 / 2 * m ^ 2 / rho) := by
    unfold calcPressureFromConservatives
    ring
  have hg : (0 : ℚ) < gamma - 1 := by
    rw [gamma_sub_one]
    norm_num
  refine ⟨hform, ?_, ?_⟩
  · rw [hform]
    constructor
    · intro h
      have h2 : 0 ≤ E - 1 / 2 * m ^ 2 / rho := nonneg_of_mul_nonneg_right h hg
      linarith
    · intro h
      exact mul_nonneg (le_of_lt hg) (by linarith)
  · intro h
    show calcPressureFromConservatives rho m E < 0
    rw [hform]
    exact mul_neg_of_pos_of_neg hg (by linarith)

theorem pressure_sign_witness :
    (0 : ℚ) < 2 ∧
    calcPressureFromConservatives 2 4 1 = (gamma - 1) * (1 - 1 / 2 * 4 ^ 2 / 2) ∧
    (0 ≤ calcPressureFromConservatives 2 4 1 ↔ (1 / 2 * 4 ^ 2 / 2 : ℚ) ≤ 1) ∧
    ((1 : ℚ) < 1 / 2 * 4 ^ 2 / 2 → (StateVector.mk 2 4 1).getPressure < 0) :=
  ⟨by norm_num, pressure_sign 2 4 1 (by norm_num)⟩

/-- C14. Default construction yields the zero state: `getDensity`,
`getUMomentum` and `getTotalEnergy` of a default-constructed state are all
zero. -/
theorem default_is_zero_state :
    StateVector.default.getDensity = 0 ∧
    StateVector.default.getUMomentum = 0 ∧
    StateVector.default.getTotalEnergy = 0 :=
  ⟨rfl, rfl, rfl⟩

/-- C15. Whole-state replacement: for every prior state `s`,
`s.setPrimitives rho u p` is the freshly constructed state of `(rho, u, p)` and
`s.setConservatives rho m E` is the state holding `(rho, m, E)`; two different
prior states give the same result, so no slot of `s` survives. -/
theorem whole_state_replacement (s t : StateVector) (rho u p m E : ℚ) :
    s.setPrimitives rho u p = StateVector.mk3 rho u p ∧
    (s.setConservatives rho m E).stored = (rho, m, E) ∧
    s.setPrimitives rho u p = t.setPrimitives rho u p ∧
    s.setConservatives rho m E = t.setConservatives rho m E :=
  ⟨rfl, rfl, rfl, rfl⟩

/-- C16, amended to exact arithmetic: without rounding, for `rho > 0`, any `u`
and `p > 0`, the state built by the constructor from primitives, and equally
the state left by `setPrimitives rho u p` on any prior state `s`, has
`getDensity > 0`, `getTotalEnergy > 0` and
`getTotalEnergy > (1/2)*getUMomentum^2/getDensity`. -/
theorem valid_primitives_give_valid_state (s : StateVector) (rho u p : ℚ)
    (hrho : 0 < rho) (hp : 0 < p) :
    (0 < (StateVector.mk3 rho u p).getDensity ∧
      0 < (StateVector.mk3 rho u p).getTotalEnergy ∧
      1 / 2 * (StateVector.mk3 rho u p).getUMomentum ^ 2 / (StateVector.mk3 rho u p).getDensity
        < (StateVector.mk3 rho u p).getTotalEnergy) ∧
    (0 < (s.setPrimitives rho u p).getDensity ∧
      0 < (s.setPrimitives rho u p).getTotalEnergy ∧
      1 / 2 * (s.setPrimitives rho u p).getUMomentum ^ 2 / (s.setPrimitives rho u p).getDensity
        < (s.setPrimitives rho u p).getTotalEnergy) := by
  have h : rho ≠ 0 := ne_of_gt hrho
  have hE : calcTotalEnergyFromPrimitives rho u p = 1 / 2 * rho * u ^ 2 + p / (2 / 5) := by
    rw [totalEnergy_eq rho u p h, gamma_sub_one]
  have hk : 1 / 2 * (rho * u) ^ 2 / rho = 1 / 2 * rho * u ^ 2 := by
    field_simp
    ring
  have hpos : (0 : ℚ) < p / (2 / 5) := div_pos hp (by norm_num)
  have hkin : (0 : ℚ) ≤ 1 / 2 * rho * u ^ 2 :=
    mul_nonneg (mul_nonneg (by norm_num) (le_of_lt hrho)) (sq_nonneg u)
  have core : 0 < rho ∧ 0 < calcTotalEnergyFromPrimitives rho u p ∧
      1 / 2 * (rho * u) ^ 2 / rho < calcTotalEnergyFromPrimitives rho u p := by
    refine ⟨hrho, ?_, ?_⟩
    · rw [hE]
      linarith
    · rw [hE, hk]
      linarith
  exact ⟨core, core⟩

theorem valid_primitives_give_valid_state_witness :
    (0 : ℚ) < 2 ∧ (0 : ℚ) < 1 ∧
    (0 < (StateVector.mk3 2 3 1).getDensity ∧
      0 < (StateVector.mk3 2 3 1).getTotalEnergy ∧
      1 / 2 * (StateVector.mk3 2 3 1).getUMomentum ^ 2 / (StateVector.mk3 2 3 1).getDensity
        < (StateVector.mk3 2 3 1).getTotalEnergy) ∧
    (0 < (StateVector.default.setPrimitives 2 3 1).getDensity ∧
      0 < (StateVector.default.setPrimitives 2 3 1).getTotalEnergy ∧
      1 / 2 * (StateVector.default.setPrimitives 2 3 1).getUMomentum ^ 2
          / (StateVector.default.setPrimitives 2 3 1).getDensity
        < (StateVector.default.setPrimitives 2 3 1).getTotalEnergy) :=
  ⟨by norm_num, by norm_num,
    valid_primitives_give_valid_state StateVector.default 2 3 1 (by norm_num) (by norm_num)⟩

/-- C17. What the returned flux object shows through the primitive accessors:
for `rho > 0`, `u ≠ 0` and any `p`, the state `f` returned by
`calcEulerFluxFromPrimitives rho u p` has `f.getDensity = rho*u`,
`f.getUVelocity = p + rho*u^2` and `f.getPressure = (E + p/rho)*u` with `E` the
total energy of `(rho, u, p)`. -/
theorem flux_through_primitive_accessors (rho u p : ℚ) (hrho : 0 < rho) (hu : u ≠ 0) :
    (calcEulerFluxFromPrimitives rho u p).getDensity = rho * u ∧
    (calcEulerFluxFromPrimitives rho u p).getUVelocity = p + rho * u ^ 2 ∧
    (calcEulerFluxFromPrimitives rho u p).getPressure
      = (calcTotalEnergyFromPrimitives rho u p + p / rho) * u := by
  have h : rho * u ≠ 0 := mul_ne_zero (ne_of_gt hrho) hu
  refine ⟨rfl, ?_, ?_⟩
  · show rho * u * (p + rho * u * u) / (rho * u) = p + rho * u ^ 2
    rw [mul_div_cancel_left₀ _ h]
    ring
  · exact pressure_of_totalEnergy (rho * u) (p + rho * u * u)
      ((calcTotalEnergyFromPrimitives rho u p + p / rho) * u) h

theorem flux_through_primitive_accessors_witness :
    (0 : ℚ) < 2 ∧ (1 : ℚ) ≠ 0 ∧
    (calcEulerFluxFromPrimitives 2 1 1).getDensity = 2 * 1 ∧
    (calcEulerFluxFromPrimitives 2 1 1).getUVelocity = 1 + 2 * 1 ^ 2 ∧
    (calcEulerFluxFromPrimitives 2 1 1).getPressure
      = (calcTotalEnergyFromPrimitives 2 1 1 + 1 / 2) * 1 :=
  ⟨by norm_num, by norm_num,
    flux_through_primitive_accessors 2 1 1 (by norm_num) (by norm_num)⟩

/-! ## Binary64: supporting facts -/

/-- With enough fuel `ilog2` is the floor of the binary logarithm. -/
theorem ilog2_spec (fuel n : ℕ) (hn : 0 < n) (hf : n ≤ fuel) :
    2 ^ ilog2 fuel n ≤ n ∧ n < 2 ^ (ilog2 fuel n + 1) := by
  induction fuel generalizing n with
  | zero => omega
  | succ f ih =>
    unfold ilog2
    by_cases h2 : n < 2
    · simp only [h2, if_true]
      omega
    · simp only [h2, if_false]
      have hhalf : 0 < n / 2 := Nat.div_pos (by omega) (by omega)
      have hle : n / 2 ≤ f := by omega
      obtain ⟨h1, h3⟩ := ih (n / 2) hhalf hle
      constructor
      · rw [pow_succ]
        omega
      · rw [pow_succ]
        omega

/-- Reference points of the rounding: the literal 1.4, a value that needs no
rounding, the absorption of 2.5 at `5e17`, a tie at the least subnormal, and the
overflow threshold. -/
theorem round64_reference_points :
    Double.round64 (7 / 5) = Double.fin (3152519739159347 / 2 ^ 51) ∧
    Double.round64 (3 / 8) = Double.fin (3 / 8) ∧
    Double.round64 (5 * 10 ^ 17 + 5 / 2) = Double.fin (5 * 10 ^ 17) ∧
    Double.round64 (1 / 2 ^ 1075) = Double.fin 0 ∧
    Double.round64 (3 / 2 ^ 1075) = Double.fin (2 / 2 ^ 1074) ∧
    Double.round64 (2 ^ 1024 - 2 ^ 970) = Double.inf false ∧
    Double.round64 (-(2 ^ 1024 - 2 ^ 970 - 1)) = Double.fin (-(2 ^ 1024 - 2 ^ 971)) := by
  decide!

theorem round64_zero : Double.round64 0 = Double.fin 0 := by
  simp [Double.round64]

/-- The value of `gamma - 1` in binary64. -/
theorem F64_gamma_sub_one :
    F64.gamma - Double.fin 1 = Double.fin (900719925474099 / 2251799813685248) := by
  decide!

theorem Double.mul_fin_zero (a : ℚ) : Double.fin a * Double.fin 0 = Double.fin 0 := by
  show Double.round64 (a * 0) = Double.fin 0
  rw [mul_zero, round64_zero]

theorem Double.fin_zero_mul_fin (a : ℚ) : Double.fin 0 * Double.fin a = Double.fin 0 := by
  show Double.round64 (0 * a) = Double.fin 0
  rw [zero_mul, round64_zero]

/-- Zero times a non-finite value is a NaN. -/
theorem Double.fin_zero_mul_of_not_finite (x : Double) (h : x.isFinite = false) :
    Double.fin 0 * x = Double.nan := by
  cases x with
  | fin a => simp [Double.isFinite] at h
  | inf t =>
    show Double.mul (Double.fin 0) (Double.inf t) = Double.nan
    simp [Double.mul]
  | nan => rfl

/-- Any value over a finite zero is non-finite. -/
theorem Double.div_fin_zero_not_finite (x : Double) :
    (x / Double.fin 0).isFinite = false := by
  cases x with
  | fin a =>
    show (Double.div (Double.fin a) (Double.fin 0)).isFinite = false
    by_cases ha : a = 0 <;> simp [Double.div, Double.isFinite, ha]
  | inf s => rfl
  | nan => rfl

/-- A sum with a non-finite right operand is non-finite. -/
theorem Double.add_not_finite_right (y x : Double) (h : x.isFinite = false) :
    (y + x).isFinite = false := by
  cases x with
  | fin a => simp [Double.isFinite] at h
  | inf t =>
    cases y with
    | fin b => rfl
    | inf s =>
      show (if s = t then Double.inf s else Double.nan).isFinite = false
      by_cases hst : s = t <;> simp [hst, Double.isFinite]
    | nan => rfl
  | nan =>
    cases y <;> rfl

theorem Double.nan_sub (x : Double) : Double.nan - x = Double.nan := by
  cases x <;> rfl

theorem Double.mul_nan (x : Double) : x * Double.nan = Double.nan := by
  cases x <;> rfl

theorem Double.nan_div (x : Double) : Double.nan / x = Double.nan := by
  cases x <;> rfl

/-- At zero density the energy slot written by the constructor is a NaN. -/
theorem F64_totalEnergy_zero_density (u p : Double) :
    F64.calcTotalEnergyFromPrimitives (Double.fin 0) u p = Double.nan := by
  unfold F64.calcTotalEnergyFromPrimitives
  rw [F64_gamma_sub_one, Double.mul_fin_zero]
  exact Double.fin_zero_mul_of_not_finite _
    (Double.add_not_finite_right _ _ (Double.div_fin_zero_not_finite p))

/-! ## Binary64: claims -/

/-- C13. Zero-density boundary: for `rho = 0` and any doubles `u` and `p`
(finite, infinite or NaN), the state built from the primitives `(rho, u, p)`
has a non-finite `getUVelocity` and a non-finite `getPressure` in binary64
arithmetic (both are NaN); the accessors are total functions and return these
values without raising anything. -/
theorem zero_density_boundary (u p : Double) :
    ((F64.StateVector.mk3 (Double.fin 0) u p).getUVelocity).isFinite = false ∧
    ((F64.StateVector.mk3 (Double.fin 0) u p).getPressure).isFinite = false ∧
    (F64.StateVector.mk3 (Double.fin 0) u p).getUVelocity = Double.nan ∧
    (F64.StateVector.mk3 (Double.fin 0) u p).getPressure = Double.nan := by
  have hv : (F64.StateVector.mk3 (Double.fin 0) u p).getUVelocity = Double.nan := by
    show Double.fin 0 * u / Double.fin 0 = Double.nan
    cases u with
    | fin a =>
      rw [Double.fin_zero_mul_fin]
      show Double.div (Double.fin 0) (Double.fin 0) = Double.nan
      simp [Double.div]
    | inf t =>
      rw [Double.fin_zero_mul_of_not_finite (Double.inf t) rfl]
      rfl
    | nan => rfl
  have hp : (F64.StateVector.mk3 (Double.fin 0) u p).getPressure = Double.nan := by
    show F64.calcPressureFromConservatives (Double.fin 0) (Double.fin 0 * u)
      (F64.calcTotalEnergyFromPrimitives (Double.fin 0) u p) = Double.nan
    rw [F64_totalEnergy_zero_density]
    unfold F64.calcPressureFromConservatives
    rw [Double.nan_sub, Double.mul_nan]
  refine ⟨?_, ?_, hv, hp⟩
  · rw [hv]
    rfl
  · rw [hp]
    rfl

/-- C12, as stated, fails in binary64.  At `(rho, m, E) = (3, 1, E₀)` with `E₀`
the double just below `1/6`, the total energy is below `(1/2)*m^2/rho` and the
returned pressure is `0`, not a negative value.  At `(rho, m, E) = (x, x, x/2)`
with `x` the double nearest `0.1`, the total energy equals `(1/2)*m^2/rho` and
the returned pressure is negative. -/
theorem pressure_sign_fails_in_binary64 :
    (Double.representable (6004799503160661 / 2 ^ 55) ∧
      (6004799503160661 / 2 ^ 55 : ℚ) < 1 / 2 * 1 ^ 2 / 3 ∧
      F64.calcPressureFromConservatives (Double.fin 3) (Double.fin 1)
        (Double.fin (6004799503160661 / 2 ^ 55)) = Double.fin 0) ∧
    (Double.representable (3602879701896397 / 2 ^ 55) ∧
      Double.representable (3602879701896397 / 2 ^ 56) ∧
      (1 / 2 * (3602879701896397 / 2 ^ 55) ^ 2 / (3602879701896397 / 2 ^ 55) : ℚ)
        = 3602879701896397 / 2 ^ 56 ∧
      F64.calcPressureFromConservatives (Double.fin (3602879701896397 / 2 ^ 55))
        (Double.fin (3602879701896397 / 2 ^ 55)) (Double.fin (3602879701896397 / 2 ^ 56))
        = Double.fin (-900719925474099 / 2 ^ 108) ∧
      (-900719925474099 / 2 ^ 108 : ℚ) < 0) := by
  decide!

/-- C16, as stated, fails in binary64.  The state built from the primitives
`(rho, u, p) = (1, 10^9, 1)` stores the momentum `10^9` and the total energy
`5*10^17`: the pressure term `2.5` is absorbed by the rounding of the sum, the
total energy equals `(1/2)*m^2/rho` instead of exceeding it, and `getPressure`
returns `0`. -/
theorem valid_state_fails_in_binary64 :
    Double.representable (10 ^ 9) ∧
    (F64.StateVector.mk3 (Double.fin 1) (Double.fin (10 ^ 9)) (Double.fin 1)).getDensity
      = Double.fin 1 ∧
    (F64.StateVector.mk3 (Double.fin 1) (Double.fin (10 ^ 9)) (Double.fin 1)).getUMomentum
      = Double.fin (10 ^ 9) ∧
    (F64.StateVector.mk3 (Double.fin 1) (Double.fin (10 ^ 9)) (Double.fin 1)).getTotalEnergy
      = Double.fin (5 * 10 ^ 17) ∧
    ¬ ((1 / 2 * (10 ^ 9) ^ 2 / 1 : ℚ) < 5 * 10 ^ 17) ∧
    (F64.StateVector.mk3 (Double.fin 1) (Double.fin (10 ^ 9)) (Double.fin 1)).getPressure
      = Double.fin 0 := by
  decide!

end flow
